import Mathlib

/-!
Verification development for the Multi-Device-Bluetooth-Driver repository.

The repository holds the decision logic in two mock/demo scripts,
src/windows/test/simulate_test.py and src/windows/test/realtime_dashboard.py,
plus an out-of-scope model-file generator.  We embed the per-device state and
the per-device evaluation steps of both scripts as pure Lean functions.
Randomness consumed by the scripts (random packet sizes, random signal deltas,
the random draw in the Air-Conditioner branch) is passed in as an explicit
argument, so each step is a pure function of its inputs.
-/

namespace BTDriver

/-- One entry of MockBluetoothDriver.active_connections in simulate_test.py:
a dict with keys name, address, type, type_code, priority, signal, data_rate,
status.  signal is an integer (dBm), data_rate a number of bytes per second. -/
structure Device where
  name : String
  address : String
  type : String
  type_code : Nat
  priority : String
  signal : Int
  data_rate : Rat
  status : String
deriving DecidableEq

/-- DEVICE_TYPES lookup of simulate_test.py: maps a type code to a display
type string, "Unknown" when absent (dict .get default). -/
def DEVICE_TYPES (code : Nat) : String :=
  if code = 1 then "Air Conditioner"
  else if code = 2 then "Refrigerator"
  else if code = 3 then "Android TV"
  else if code = 4 then "Bluetooth Headphones"
  else if code = 5 then "Mobile Phone"
  else "Unknown"

/-- connect_mock_device of simulate_test.py: builds a device dict and appends
it to active_connections unconditionally (there is no duplicate check and the
call never fails).  The randomly generated six-byte address and the random
initial signal (randint(-90, -30)) are passed in as arguments addr and sig. -/
def connect_mock_device (conns : List Device) (name : String) (device_type : Nat)
    (addr : String) (sig : Int) : List Device :=
  conns ++ [{ name := name, address := addr, type := DEVICE_TYPES device_type,
              type_code := device_type, priority := "MEDIUM", signal := sig,
              data_rate := 0, status := "Connected" }]

/-- The per-device body of simulate_traffic in simulate_test.py: sets
data_rate to packet_size / 0.5 and adds a random delta (randint(-2, 2)) to
signal, with no clamping.  packet_size (randint(100, 5000)) and delta are the
random draws, passed in explicitly.  The loop also accumulates packet_size
into stats.total_bytes and bumps stats.packets; those counters touch no
device field. -/
def simulate_traffic_dev (dev : Device) (packet_size : Nat) (delta : Int) : Device :=
  { dev with data_rate := (packet_size : Rat) / (0.5 : Rat),
             signal := dev.signal + delta }

/-- The kinds of AI actions the scripts can emit for one device. -/
inductive ActionKind where
  | PriorityElevate
  | SignalBoost
  | PowerOptimize
deriving DecidableEq

/-- The per-device body of run_ai_optimization in simulate_test.py.  Three
independent if-branches, in source order: (1) type "Bluetooth Headphones" and
priority not "CRITICAL" sets priority to "CRITICAL"; (2) signal < -80 emits a
signal boost; (3) type "Air Conditioner" and random.random() > 0.7 emits a
power optimization.  The random draw of branch (3) is the argument r.  Each
fired branch prints one AI ACTION line and bumps stats.ai_optimizations by
one; we return the fired branches as the action list (one action per
increment, in emission order). -/
def run_ai_optimization_dev (dev : Device) (r : Rat) : Device × List ActionKind :=
  ((if dev.type = "Bluetooth Headphones" ∧ dev.priority ≠ "CRITICAL" then
      { dev with priority := "CRITICAL" } else dev),
   (if dev.type = "Bluetooth Headphones" ∧ dev.priority ≠ "CRITICAL" then
      [ActionKind.PriorityElevate] else []) ++
   (if dev.signal < -80 then [ActionKind.SignalBoost] else []) ++
   (if dev.type = "Air Conditioner" ∧ r > (0.7 : Rat) then
      [ActionKind.PowerOptimize] else []))

/-- One entry of the DEVICES list in realtime_dashboard.py: a dict with keys
name, type, addr, priority, load. -/
structure DashDevice where
  name : String
  type : String
  addr : String
  priority : String
  load : Nat
deriving DecidableEq

/-- The add-if-absent pattern of realtime_dashboard.py:
if action not in logs: logs.append(action). -/
def appendLog (logs : List String) (action : String) : List String :=
  if action ∈ logs then logs else logs ++ [action]

/-- The signal-boost log string of realtime_dashboard.py: an f-string
interpolating the device name and the signal reading. -/
def signal_boost_action (name : String) (signal : Int) : String :=
  "AI ACTION: Signal boost for " ++ name ++ " (" ++ toString signal ++ "dBm)"

/-- The elevation log string of realtime_dashboard.py; it is a fixed literal
(the device name Sony XM4 is hard-coded in the source). -/
def elevate_action : String :=
  "AI ACTION: Elevating Sony XM4 to CRITICAL (High Fidelity Audio stream detected)"

/-- The per-device AI Engine logic inside the cycle loop of simulate in
realtime_dashboard.py.  Inputs signal (random.randint(-95, -30)) and traffic
(random.uniform draw, KB/s) are the random readings of that cycle, passed in
explicitly.  In source order: (1) signal < -85 appends the signal-boost log
line if not already present; (2) type "Headphones" and traffic > 5.0 and
priority not "CRITICAL" sets priority to "CRITICAL" and appends the elevation
log line if not already present. -/
def dash_eval_dev (dev : DashDevice) (signal : Int) (traffic : Rat)
    (logs : List String) : DashDevice × List String :=
  if dev.type = "Headphones" ∧ traffic > (5 : Rat) ∧ dev.priority ≠ "CRITICAL" then
    ({ dev with priority := "CRITICAL" },
     appendLog (if signal < -85 then
                  appendLog logs (signal_boost_action dev.name signal)
                else logs) elevate_action)
  else
    (dev,
     if signal < -85 then appendLog logs (signal_boost_action dev.name signal)
     else logs)

/-- The log tail rendered by realtime_dashboard.py: logs[-5:], the last five
entries (the whole list when it has fewer than five). -/
def recent_logs (logs : List String) : List String :=
  logs.drop (logs.length - 5)

/-- Numeric rank of the priority strings used by both scripts, for stating
that priority is never lowered: CRITICAL is highest. -/
def prioRank (p : String) : Nat :=
  if p = "CRITICAL" then 3 else if p = "HIGH" then 2
  else if p = "MEDIUM" then 1 else 0

/-- Modelled from the spec: the error taxonomy entry for Telemetry Ingest.
The ingest(address, rawSignalReading, bytesSinceLast, elapsedSeconds)
operation of spec section 4.2 is absent from src (simulate_traffic is only
the random traffic generator driving it and takes no interval argument). -/
inductive IngestError where
  | InvalidInterval
deriving DecidableEq

/-- Modelled from the spec: the clamp of rawSignalReading to [-100, 0]
performed by Telemetry Ingest (spec section 4.2); absent from src. -/
def clampSignal (raw : Int) : Int :=
  max (-100) (min 0 raw)

/-- Modelled from the spec: the Telemetry Ingest contract of spec section 4.2,
absent from src.  Fails with InvalidInterval when elapsedSeconds <= 0,
producing no updated device (the prior data_rate and signal are kept by the
caller); otherwise stores data_rate = bytesSinceLast / elapsedSeconds and the
clamped raw signal reading, touching no other field. -/
def ingest (dev : Device) (rawSignalReading : Int) (bytesSinceLast : Nat)
    (elapsedSeconds : Rat) : Except IngestError Device :=
  if elapsedSeconds ≤ 0 then Except.error IngestError.InvalidInterval
  else Except.ok { dev with
                   data_rate := (bytesSinceLast : Rat) / elapsedSeconds,
                   signal := clampSignal rawSignalReading }

/-- Modelled from the spec: the error taxonomy entry for the Device Registry
connect operation (spec section 4.1), absent from src (connect_mock_device
never rejects an address). -/
inductive ConnectError where
  | DuplicateAddress
deriving DecidableEq

/-- Modelled from the spec: the connect(address, name, class) contract of
spec section 4.1, absent from src.  Fails with DuplicateAddress when a live
entry with the same address exists; otherwise appends a new device with
priority MEDIUM and status Connected (initial signal passed in as sig). -/
def connect (regs : List Device) (address name ty : String) (code : Nat)
    (sig : Int) : Except ConnectError (List Device) :=
  if regs.any (fun d => d.address = address) then
    Except.error ConnectError.DuplicateAddress
  else
    Except.ok (regs ++ [{ name := name, address := address, type := ty,
                          type_code := code, priority := "MEDIUM", signal := sig,
                          data_rate := 0, status := "Connected" }])

/-- Concrete connected phone with the persisting low reading -90 dBm. -/
def dC1 : Device :=
  { name := "Samsung S23", address := "D9:92:1C:88:A3:21", type := "Mobile Phone",
    type_code := 5, priority := "MEDIUM", signal := -90, data_rate := 0,
    status := "Connected" }

/-- Concrete connected phone with signal -82 dBm, between the two thresholds. -/
def dC2 : Device :=
  { name := "Samsung S23", address := "D9:92:1C:88:A3:21", type := "Mobile Phone",
    type_code := 5, priority := "MEDIUM", signal := -82, data_rate := 0,
    status := "Connected" }

/-- Concrete headphones device with data_rate 0 and priority MEDIUM. -/
def dC3 : Device :=
  { name := "Sony XM4", address := "A8:11:7F:32:01:45", type := "Bluetooth Headphones",
    type_code := 4, priority := "MEDIUM", signal := -50, data_rate := 0,
    status := "Connected" }

/-- Concrete air-conditioner device for the randomness counterexample. -/
def dC4 : Device :=
  { name := "Living Room AC", address := "B4:3A:92:7C:F5:12", type := "Air Conditioner",
    type_code := 1, priority := "MEDIUM", signal := -50, data_rate := 0,
    status := "Connected" }

/-- Concrete non-air-conditioner device for the determinism witness. -/
def dC4w : Device :=
  { name := "Kitchen Fridge", address := "C1:44:8E:20:BC:99", type := "Refrigerator",
    type_code := 2, priority := "MEDIUM", signal := -60, data_rate := 0,
    status := "Connected" }

/-- Concrete dashboard headphones entry with priority HIGH. -/
def dC5w : DashDevice :=
  { name := "Sony XM4", type := "Headphones", addr := "A8:11:7F:32:01:45",
    priority := "HIGH", load := 0 }

/-- Concrete headphones device with priority HIGH. -/
def dC5t : Device :=
  { name := "Sony XM4", address := "A8:11:7F:32:01:45", type := "Bluetooth Headphones",
    type_code := 4, priority := "HIGH", signal := -50, data_rate := 0,
    status := "Connected" }

/-- Concrete device for the ingest witness. -/
def dC6 : Device :=
  { name := "Samsung S23", address := "D9:92:1C:88:A3:21", type := "Mobile Phone",
    type_code := 5, priority := "MEDIUM", signal := -60, data_rate := 7,
    status := "Connected" }

/-- Concrete registered device for the duplicate-address witness. -/
def dC7 : Device :=
  { name := "Samsung S23", address := "AA:AA:AA:AA:AA:AA", type := "Mobile Phone",
    type_code := 5, priority := "MEDIUM", signal := -50, data_rate := 0,
    status := "Connected" }

/-- Concrete device at signal -90 dBm, inside the randint(-90, -30) range
that connect_mock_device assigns at connect time. -/
def dC8 : Device :=
  { name := "Kitchen Fridge", address := "C1:44:8E:20:BC:99", type := "Refrigerator",
    type_code := 2, priority := "MEDIUM", signal := -90, data_rate := 0,
    status := "Connected" }

/-- Concrete headphones device already at priority CRITICAL. -/
def dC10 : Device :=
  { name := "Sony XM4", address := "A8:11:7F:32:01:45", type := "Bluetooth Headphones",
    type_code := 4, priority := "CRITICAL", signal := -50, data_rate := 0,
    status := "Connected" }

/-- Concrete dashboard headphones entry already at priority CRITICAL. -/
def dC10w : DashDevice :=
  { name := "Sony XM4", type := "Headphones", addr := "A8:11:7F:32:01:45",
    priority := "CRITICAL", load := 0 }

/-- appendLog always makes its argument a member of the log. -/
theorem mem_appendLog_self (logs : List String) (a : String) : a ∈ appendLog logs a := by
  unfold appendLog
  split
  · assumption
  · simp

/-- appendLog is the identity on a log already holding its argument. -/
theorem appendLog_eq_of_mem (logs : List String) (a : String) (h : a ∈ logs) :
    appendLog logs a = logs := by
  unfold appendLog
  simp [h]

/-- appendLog never removes an entry. -/
theorem mem_appendLog_of_mem (logs : List String) (a b : String) (h : a ∈ logs) :
    a ∈ appendLog logs b := by
  unfold appendLog
  split
  · exact h
  · simp [h]

/-- The device component of the simulate_test evaluation: only the
headphones branch touches the device, setting priority to CRITICAL. -/
theorem run_ai_optimization_dev_fst (dev : Device) (r : Rat) :
    (run_ai_optimization_dev dev r).1 =
      if dev.type = "Bluetooth Headphones" ∧ dev.priority ≠ "CRITICAL" then
        { dev with priority := "CRITICAL" } else dev := rfl

/-- The device component of the dashboard evaluation: only the headphones
branch touches the device, setting priority to CRITICAL. -/
theorem dash_eval_dev_fst (dev : DashDevice) (s : Int) (t : Rat)
    (logs : List String) :
    (dash_eval_dev dev s t logs).1 =
      if dev.type = "Headphones" ∧ t > (5 : Rat) ∧ dev.priority ≠ "CRITICAL" then
        { dev with priority := "CRITICAL" } else dev := by
  unfold dash_eval_dev
  split_ifs <;> rfl

/-- prioRank never exceeds the CRITICAL rank. -/
theorem prioRank_le_three (p : String) : prioRank p ≤ 3 := by
  unfold prioRank
  split_ifs <;> omega

/-- Claim C1, counterexample: in run_ai_optimization of simulate_test.py a
connected phone with unchanged reading -90 dBm gets one SignalBoost on the
first cycle, its state is unchanged, and a second cycle on that unchanged
state emits one additional SignalBoost, not zero: there is no suppression in
that path. -/
theorem C1_cex :
    (run_ai_optimization_dev dC1 0).2 = [ActionKind.SignalBoost] ∧
    (run_ai_optimization_dev dC1 0).1 = dC1 ∧
    (run_ai_optimization_dev (run_ai_optimization_dev dC1 0).1 0).2 =
      [ActionKind.SignalBoost] := by
  refine ⟨?_, ?_, ?_⟩ <;> simp [run_ai_optimization_dev, dC1]

/-- Claim C1, amended: in realtime_dashboard.py the per-device evaluation is
idempotent: re-running it on its own result with the same signal and traffic
readings changes neither the device nor the log, so an unchanged low reading
appends zero additional signal-boost entries (string-equality suppression);
the run_ai_optimization path of simulate_test.py has no such suppression. -/
theorem C1_dash_idem (dev : DashDevice) (signal : Int) (traffic : Rat)
    (logs : List String) :
    dash_eval_dev (dash_eval_dev dev signal traffic logs).1 signal traffic
      (dash_eval_dev dev signal traffic logs).2 =
    dash_eval_dev dev signal traffic logs := by
  unfold dash_eval_dev
  by_cases hg : dev.type = "Headphones" ∧ traffic > (5 : Rat) ∧ dev.priority ≠ "CRITICAL"
  · rw [if_pos hg]
    simp only
    rw [if_neg (by simp)]
    by_cases hs : signal < -85
    · simp only [if_pos hs]
      rw [appendLog_eq_of_mem _ _
        (mem_appendLog_of_mem _ _ _ (mem_appendLog_self _ _))]
    · simp only [if_neg hs]
  · rw [if_neg hg]
    simp only
    rw [if_neg hg]
    by_cases hs : signal < -85
    · simp only [if_pos hs]
      rw [appendLog_eq_of_mem _ _ (mem_appendLog_self _ _)]
    · simp only [if_neg hs]

/-- Claim C2, counterexample: a device at -82 dBm receives a SignalBoost from
run_ai_optimization of simulate_test.py although -82 is not strictly below
-85: the threshold in that path is -80, not -85. -/
theorem C2_cex :
    ActionKind.SignalBoost ∈ (run_ai_optimization_dev dC2 0).2 ∧
    ¬ (dC2.signal < -85) := by
  constructor
  · simp [run_ai_optimization_dev, dC2]
  · simp [dC2]

/-- Claim C2, amended: run_ai_optimization of simulate_test.py produces a
SignalBoost for a device if and only if its signal at evaluation time is
strictly below -80 dBm, and it does so on every evaluation cycle while the
condition persists (no per-episode suppression in that path). -/
theorem C2_threshold (dev : Device) (r : Rat) :
    ActionKind.SignalBoost ∈ (run_ai_optimization_dev dev r).2 ↔ dev.signal < -80 := by
  unfold run_ai_optimization_dev
  split_ifs <;> simp_all

/-- Claim C3, counterexample: run_ai_optimization of simulate_test.py
elevates a headphones device with data_rate 0 to CRITICAL, although 0 does
not exceed the audio rate threshold (625000 B/s in the spec scenario): that
path checks no data rate at all. -/
theorem C3_cex :
    ActionKind.PriorityElevate ∈ (run_ai_optimization_dev dC3 0).2 ∧
    (run_ai_optimization_dev dC3 0).1.priority = "CRITICAL" ∧
    dC3.data_rate = 0 ∧ ¬ (dC3.data_rate > 625000) := by
  refine ⟨?_, ?_, ?_, ?_⟩
  · simp [run_ai_optimization_dev, dC3]
  · simp [run_ai_optimization_dev, dC3]
  · rfl
  · norm_num [dC3]

/-- Claim C3, amended: in simulate_test.py the elevation fires exactly when
the class is Bluetooth Headphones and the priority is not already CRITICAL,
with no data-rate condition, and afterwards the priority is CRITICAL; in
realtime_dashboard.py the resulting priority is CRITICAL exactly when it
already was, or the class is Headphones and the traffic reading exceeds the
5.0 KB/s threshold. -/
theorem C3_elevate :
    (∀ (dev : Device) (r : Rat),
      ((run_ai_optimization_dev dev r).1.priority = "CRITICAL" ↔
        (dev.type = "Bluetooth Headphones" ∨ dev.priority = "CRITICAL")) ∧
      (ActionKind.PriorityElevate ∈ (run_ai_optimization_dev dev r).2 ↔
        (dev.type = "Bluetooth Headphones" ∧ dev.priority ≠ "CRITICAL"))) ∧
    (∀ (dev : DashDevice) (s : Int) (t : Rat) (logs : List String),
      ((dash_eval_dev dev s t logs).1.priority = "CRITICAL" ↔
        (dev.priority = "CRITICAL" ∨ (dev.type = "Headphones" ∧ t > (5 : Rat))))) := by
  constructor
  · intro dev r
    constructor
    · unfold run_ai_optimization_dev
      split_ifs <;> simp_all
    · unfold run_ai_optimization_dev
      split_ifs <;> simp_all
  · intro dev s t logs
    unfold dash_eval_dev
    split_ifs <;> simp_all

/-- Claim C4, counterexample: on identical device state and context,
run_ai_optimization of simulate_test.py emits a PowerOptimize for an
air-conditioner device when the hidden random draw is 4/5 and nothing when it
is 0: the evaluation is not deterministic in the device state alone. -/
theorem C4_cex :
    (run_ai_optimization_dev dC4 (4/5)).2 = [ActionKind.PowerOptimize] ∧
    (run_ai_optimization_dev dC4 0).2 = [] ∧
    (run_ai_optimization_dev dC4 (4/5)).2 ≠ (run_ai_optimization_dev dC4 0).2 := by
  have h1 : ((4 : Rat)/5) > 0.7 := by norm_num
  have h2 : ¬ ((0 : Rat) > 0.7) := by norm_num
  refine ⟨?_, ?_, ?_⟩
  · simp [run_ai_optimization_dev, dC4, h1]
  · simp [run_ai_optimization_dev, dC4, h2]
  · simp [run_ai_optimization_dev, dC4, h1, h2]

/-- Claim C4, amended: the only randomness inside the per-device evaluation
of simulate_test.py is the draw of the Air-Conditioner PowerOptimize branch;
for every device whose type is not Air Conditioner, two runs on identical
state produce identical results whatever the draws. -/
theorem C4_deterministic (dev : Device) (r1 r2 : Rat)
    (h : dev.type ≠ "Air Conditioner") :
    run_ai_optimization_dev dev r1 = run_ai_optimization_dev dev r2 := by
  unfold run_ai_optimization_dev
  simp [h]

/-- Claim C4, witness: a refrigerator device evaluates identically under two
different random draws. -/
theorem C4_witness :
    dC4w.type ≠ "Air Conditioner" ∧
    run_ai_optimization_dev dC4w 0 = run_ai_optimization_dev dC4w 1 :=
  ⟨by simp [dC4w], C4_deterministic dC4w 0 1 (by simp [dC4w])⟩

/-- Claim C5: in both scripts every priority transition of the per-device
evaluation goes to CRITICAL and leaves a record: in realtime_dashboard.py the
elevation log entry is in the log afterwards, and in simulate_test.py the
PriorityElevate action (one printed AI ACTION line plus one
stats.ai_optimizations increment) is emitted; priority is never changed
silently. -/
theorem C5_priority_logged :
    (∀ (dev : DashDevice) (s : Int) (t : Rat) (logs : List String),
      (dash_eval_dev dev s t logs).1.priority ≠ dev.priority →
        (dash_eval_dev dev s t logs).1.priority = "CRITICAL" ∧
          elevate_action ∈ (dash_eval_dev dev s t logs).2) ∧
    (∀ (dev : Device) (r : Rat),
      (run_ai_optimization_dev dev r).1.priority ≠ dev.priority →
        (run_ai_optimization_dev dev r).1.priority = "CRITICAL" ∧
          ActionKind.PriorityElevate ∈ (run_ai_optimization_dev dev r).2) := by
  constructor
  · intro dev s t logs h
    unfold dash_eval_dev at h ⊢
    split_ifs at h ⊢ with hg hs
    all_goals first
      | exact ⟨rfl, mem_appendLog_self _ _⟩
      | simp at h
  · intro dev r h
    unfold run_ai_optimization_dev at h ⊢
    split_ifs at h ⊢ with hg <;> simp_all

/-- Claim C5, witness: a headphones device at priority HIGH transitions to
CRITICAL in both scripts, and the record exists in each. -/
theorem C5_witness :
    elevate_action ∈ (dash_eval_dev dC5w (-50) 6 []).2 ∧
    ActionKind.PriorityElevate ∈ (run_ai_optimization_dev dC5t 0).2 :=
  ⟨(C5_priority_logged.1 dC5w (-50) 6 []
      (by have ht : (6 : Rat) > 5 := by norm_num
          simp [dash_eval_dev, dC5w, ht])).2,
   (C5_priority_logged.2 dC5t 0
      (by simp [run_ai_optimization_dev, dC5t])).2⟩

/-- Claim C6: the spec-modelled ingest fails with InvalidInterval on every
elapsedSeconds at most 0, producing no updated device (prior data_rate and
signal are untouched), and on a positive interval stores exactly
data_rate = bytesSinceLast / elapsedSeconds and the clamped reading. -/
theorem C6_ingest (dev : Device) (raw : Int) (bytes : Nat) (elapsed : Rat) :
    (elapsed ≤ 0 →
      ingest dev raw bytes elapsed = Except.error IngestError.InvalidInterval) ∧
    (0 < elapsed →
      ingest dev raw bytes elapsed =
        Except.ok { dev with data_rate := (bytes : Rat) / elapsed,
                             signal := clampSignal raw }) := by
  constructor
  · intro h
    simp [ingest, h]
  · intro h
    simp [ingest, not_le.mpr h]

/-- Claim C6, witness: ingest with interval 0 fails with InvalidInterval, and
with interval 1 stores rate 500 B/s and the reading -120 clamped to -100. -/
theorem C6_witness :
    ingest dC6 (-90) 500 0 = Except.error IngestError.InvalidInterval ∧
    ingest dC6 (-120) 500 1 =
      Except.ok { dC6 with data_rate := 500, signal := -100 } := by
  constructor
  · exact (C6_ingest dC6 (-90) 500 0).1 (by norm_num)
  · rw [(C6_ingest dC6 (-120) 500 1).2 (by norm_num)]
    norm_num [clampSignal]

/-- Claim C7, counterexample: connect_mock_device of simulate_test.py never
fails and appends unconditionally, so when the randomly generated address
repeats an existing one the registry ends with two live entries sharing that
address. -/
theorem C7_cex :
    ((connect_mock_device
        (connect_mock_device [] "Samsung S23" 5 "AA:AA:AA:AA:AA:AA" (-50))
        "Samsung S23 bis" 5 "AA:AA:AA:AA:AA:AA" (-50)).map Device.address) =
      ["AA:AA:AA:AA:AA:AA", "AA:AA:AA:AA:AA:AA"] ∧
    ¬ ((connect_mock_device
        (connect_mock_device [] "Samsung S23" 5 "AA:AA:AA:AA:AA:AA" (-50))
        "Samsung S23 bis" 5 "AA:AA:AA:AA:AA:AA" (-50)).map Device.address).Nodup := by
  constructor
  · rfl
  · simp [connect_mock_device]

/-- Claim C7, amended: the spec-modelled connect contract fails with
DuplicateAddress on every call whose address is already among the live
entries, and a successful connect preserves address uniqueness of the
registry; the src mock connect_mock_device offers no such guarantee. -/
theorem C7_connect (regs : List Device) (address name ty : String) (code : Nat)
    (sig : Int) :
    ((∃ d ∈ regs, d.address = address) →
      connect regs address name ty code sig =
        Except.error ConnectError.DuplicateAddress) ∧
    (∀ regs2, connect regs address name ty code sig = Except.ok regs2 →
      (regs.map Device.address).Nodup → (regs2.map Device.address).Nodup) := by
  constructor
  · rintro ⟨d, hd, ha⟩
    unfold connect
    rw [if_pos]
    exact List.any_eq_true.mpr ⟨d, hd, by simp [ha]⟩
  · intro regs2 hok hnd
    unfold connect at hok
    split_ifs at hok with hany
    have hre : regs2 = regs ++
        [{ name := name, address := address, type := ty, type_code := code,
           priority := "MEDIUM", signal := sig, data_rate := 0,
           status := "Connected" }] := by
      injection hok with h
      exact h.symm
    subst hre
    simp only [List.any_eq_true, decide_eq_true_eq, not_exists, not_and] at hany
    rw [List.map_append, List.nodup_append]
    refine ⟨hnd, List.nodup_singleton _, ?_⟩
    intro a ha hb
    obtain ⟨d, hd, rfl⟩ := List.mem_map.mp ha
    simp only [List.map_cons, List.map_nil, List.mem_cons,
      List.not_mem_nil, or_false] at hb
    exact hany d hd hb

/-- Claim C7, witness: connecting an address already registered fails with
DuplicateAddress under the spec-modelled contract. -/
theorem C7_witness :
    connect [dC7] "AA:AA:AA:AA:AA:AA" "Samsung S23 bis" "Mobile Phone" 5 (-50) =
      Except.error ConnectError.DuplicateAddress :=
  (C7_connect [dC7] "AA:AA:AA:AA:AA:AA" "Samsung S23 bis" "Mobile Phone" 5 (-50)).1
    ⟨dC7, by simp, rfl⟩

/-- Claim C8, counterexample: simulate_traffic of simulate_test.py applies
the random signal delta with no clamping, so a device connected at -90 dBm
(a value connect_mock_device can assign) reaches -102 dBm after six ticks of
delta -2, outside [-100, 0]. -/
theorem C8_cex :
    dC8.signal = -90 ∧
    ((List.replicate 6 ((-2) : Int)).foldl
        (fun d δ => simulate_traffic_dev d 100 δ) dC8).signal = -102 ∧
    ¬ (-100 ≤ ((List.replicate 6 ((-2) : Int)).foldl
        (fun d δ => simulate_traffic_dev d 100 δ) dC8).signal) := by
  refine ⟨rfl, ?_, ?_⟩ <;> simp [simulate_traffic_dev, dC8, List.replicate]

/-- Claim C8, amended: the spec-modelled ingest clamp keeps every stored
reading in [-100, 0], but the src telemetry update simulate_traffic adds its
delta unclamped; per tick the stored signal moves by at most 2 dBm in either
direction when the delta lies in the randint(-2, 2) range, and nothing
confines it to [-100, 0]. -/
theorem C8_signal_drift :
    (∀ raw : Int, -100 ≤ clampSignal raw ∧ clampSignal raw ≤ 0) ∧
    (∀ (dev : Device) (packet_size : Nat) (delta : Int), -2 ≤ delta → delta ≤ 2 →
      -2 ≤ (simulate_traffic_dev dev packet_size delta).signal - dev.signal ∧
      (simulate_traffic_dev dev packet_size delta).signal - dev.signal ≤ 2) := by
  constructor
  · intro raw
    unfold clampSignal
    omega
  · intro dev p δ h1 h2
    unfold simulate_traffic_dev
    simp only
    omega

/-- Claim C8, witness: one traffic tick with delta -2 moves the stored signal
by exactly that bounded amount. -/
theorem C8_witness :
    -2 ≤ (simulate_traffic_dev dC8 100 (-2)).signal - dC8.signal ∧
    (simulate_traffic_dev dC8 100 (-2)).signal - dC8.signal ≤ 2 :=
  C8_signal_drift.2 dC8 100 (-2) (by norm_num) (by norm_num)

/-- Claim C9, counterexample: the dashboard log list grows past five entries
with no eviction: six distinct action strings leave a log of length six. -/
theorem C9_cex :
    (["a1", "a2", "a3", "a4", "a5", "a6"].foldl appendLog []).length = 6 ∧
    ¬ ((["a1", "a2", "a3", "a4", "a5", "a6"].foldl appendLog []).length ≤ 5) := by
  constructor
  · decide
  · decide

/-- Claim C9, amended: the dashboard action log is append-only and unbounded
(each new action extends it by at most one entry at the end and nothing is
ever evicted); only the rendered tail logs[-5:] is bounded, at five entries. -/
theorem C9_log_unbounded :
    (∀ (logs : List String) (a : String),
      ∃ t, appendLog logs a = logs ++ t ∧ t.length ≤ 1) ∧
    (∀ logs : List String, (recent_logs logs).length ≤ 5) := by
  constructor
  · intro logs a
    unfold appendLog
    split_ifs with h
    · exact ⟨[], by simp⟩
    · exact ⟨[a], by simp⟩
  · intro logs
    unfold recent_logs
    rw [List.length_drop]
    omega

/-- Claim C10: no operation of either script lowers a device priority: each
evaluation either keeps the priority or raises it to CRITICAL, the prioRank
never decreases, a CRITICAL priority stays CRITICAL, and the traffic update
never touches priority. -/
theorem C10_priority_never_lowered :
    (∀ (dev : Device) (r : Rat),
      ((run_ai_optimization_dev dev r).1.priority = dev.priority ∨
        (run_ai_optimization_dev dev r).1.priority = "CRITICAL") ∧
      prioRank dev.priority ≤ prioRank (run_ai_optimization_dev dev r).1.priority ∧
      (dev.priority = "CRITICAL" →
        (run_ai_optimization_dev dev r).1.priority = "CRITICAL")) ∧
    (∀ (dev : DashDevice) (s : Int) (t : Rat) (logs : List String),
      ((dash_eval_dev dev s t logs).1.priority = dev.priority ∨
        (dash_eval_dev dev s t logs).1.priority = "CRITICAL") ∧
      prioRank dev.priority ≤ prioRank (dash_eval_dev dev s t logs).1.priority ∧
      (dev.priority = "CRITICAL" →
        (dash_eval_dev dev s t logs).1.priority = "CRITICAL")) ∧
    (∀ (dev : Device) (packet_size : Nat) (delta : Int),
      (simulate_traffic_dev dev packet_size delta).priority = dev.priority) := by
  refine ⟨?_, ?_, ?_⟩
  · intro dev r
    rw [run_ai_optimization_dev_fst]
    split_ifs with hg
    · refine ⟨Or.inr rfl, ?_, fun _ => rfl⟩
      have h1 := prioRank_le_three dev.priority
      have h2 : prioRank "CRITICAL" = 3 := by simp [prioRank]
      show prioRank dev.priority ≤ prioRank "CRITICAL"
      omega
    · exact ⟨Or.inl rfl, le_refl _, fun hc => hc⟩
  · intro dev s t logs
    rw [dash_eval_dev_fst]
    split_ifs with hg
    · refine ⟨Or.inr rfl, ?_, fun _ => rfl⟩
      have h1 := prioRank_le_three dev.priority
      have h2 : prioRank "CRITICAL" = 3 := by simp [prioRank]
      show prioRank dev.priority ≤ prioRank "CRITICAL"
      omega
    · exact ⟨Or.inl rfl, le_refl _, fun hc => hc⟩
  · intro dev p δ
    rfl

/-- Claim C10, witness: a device already at CRITICAL stays CRITICAL through
both evaluations. -/
theorem C10_witness :
    (run_ai_optimization_dev dC10 0).1.priority = "CRITICAL" ∧
    (dash_eval_dev dC10w (-50) 6 []).1.priority = "CRITICAL" :=
  ⟨(C10_priority_never_lowered.1 dC10 0).2.2 rfl,
   (C10_priority_never_lowered.2.1 dC10w (-50) 6 []).2.2 rfl⟩

end BTDriver
